import Mathlib

/-!
Verification of the psycopg3 named-cursor state machine
(`psycopg3/named_cursor.py`) and the libpq session-handle wrapper
(`pq_ctypes.py`), as a shallow embedding.

The server and the connection layer (`connection._exec_command`, the
protocol engine, the `sql` composition module, `BaseCursor`) are external
collaborators of the named-cursor module; they are modelled from the
design spec where noted.  Commands sent on a connection are recorded in a
trace (`Conn.sent`), and the server is an oracle: a list of pending
replies consumed one per round trip, so that every possible sequence of
server outcomes can be quantified over.
-/

/-- A decoded row, content abstracted to a list of integers. -/
abbrev Row := List Int

/-- Python exception values raised by the layers under study. -/
inductive PyErr where
  | ValueError (msg : String)
  | ProgrammingError (msg : String)
  | OperationalError (msg : String)
deriving DecidableEq, Repr

/-- Python warnings emitted by finalizers. -/
inductive PyWarning where
  | resourceWarning (msg : String)
deriving DecidableEq, Repr

/-- One protocol request: either SQL command text, or the protocol-level
describe-portal request (which carries no SQL text). -/
inductive Command where
  | sql (text : String)
  | describePortal (name : String)
deriving DecidableEq, Repr

/-- A successful server reply to one round trip: the field descriptors
(abstracted to their names) and the returned row batch. -/
structure OkReply where
  fields : List String
  rows : List Row
deriving DecidableEq, Repr

/-- A server reply: success with a result, or a server-reported error. -/
inductive Reply where
  | ok (r : OkReply)
  | err (msg : String)
deriving DecidableEq, Repr

/-- The connection, as visible to the named-cursor module: the pending
server replies (the oracle) and the trace of commands sent so far. -/
structure Conn where
  replies : List Reply
  sent : List Command
deriving DecidableEq, Repr

/-- Modelled from the spec: one round trip of the Protocol Execution
Engine driven to completion (`connection.wait` / `_exec_command` /
`generators.execute`, files outside src).  The command is dispatched
(appended to the trace), one pending reply is consumed; a fatal server
result is translated into a raised query-level error at the execution
boundary, and an exhausted connection raises an I/O-level error. -/
def round_trip (c : Conn) (cmd : Command) : Conn × Except PyErr OkReply :=
  let c' : Conn := { replies := c.replies.tail, sent := c.sent ++ [cmd] }
  match c.replies with
  | [] => (c', .error (.OperationalError "the connection is lost"))
  | .ok r :: _ => (c', .ok r)
  | .err m :: _ => (c', .error (.ProgrammingError m))

/-- Modelled from the spec: `connection._exec_command` (file outside src),
which sends one SQL command and drives it through the engine. -/
def exec_command (c : Conn) (q : String) : Conn × Except PyErr OkReply :=
  round_trip c (.sql q)

/-- Modelled from the spec: `sql.Identifier` quoting by the external
composition layer ("identifier and literal values safely quoted by the
composition layer"). -/
def sqlIdent (s : String) : String :=
  "\"" ++ s.replace "\"" "\"\"" ++ "\""

/-- Modelled from the spec: `sql.Literal` rendering of an integer by the
external composition layer. -/
def sqlLit (n : Int) : String := toString n

/-- `DEFAULT_ITERSIZE` from `named_cursor.py`. -/
def DEFAULT_ITERSIZE : Int := 100

/-- Client-side state of a named cursor.  `name` and `described` live on
`NamedCursorHelper`; `closed` (`_closed`), `pos` (`_pos`), `arraysize`
and `description` live on `BaseCursor` (file outside src, modelled from
the spec); `itersize` lives on the cursor facade.  The sync and async
facades have identical fields, so both are represented by this record. -/
structure NamedCursor where
  name : String
  described : Bool
  closed : Bool
  pos : Int
  arraysize : Int
  itersize : Int
  description : Option (List String)
deriving DecidableEq, Repr

/-- `NamedCursor.__init__` / `AsyncNamedCursor.__init__`: a fresh cursor
object bound to a name (the helper starts with `described = False`). -/
def NamedCursor.make (name : String) : NamedCursor :=
  { name := name, described := false, closed := false, pos := 0,
    arraysize := 1, itersize := DEFAULT_ITERSIZE, description := none }

/-- `NamedCursorHelper._describe_gen`: send a describe-portal request for
the cursor's name, drive it through the engine, record the result shape
(`cur._execute_results`, modelled from the spec as recording the field
descriptors and raising on a fatal result), then set `described`. -/
def describe_gen (cur : NamedCursor) (c : Conn) :
    Conn × NamedCursor × Except PyErr Unit :=
  match round_trip c (.describePortal cur.name) with
  | (c', .ok r) =>
      (c', { cur with described := true, description := some r.fields }, .ok ())
  | (c', .error e) => (c', cur, .error e)

/-- `NamedCursorHelper._close_gen`: execute `close <name>`. -/
def close_gen (cur : NamedCursor) (c : Conn) : Conn × Except PyErr Unit :=
  match exec_command c ("close " ++ sqlIdent cur.name) with
  | (c', .ok _) => (c', .ok ())
  | (c', .error e) => (c', .error e)

/-- `NamedCursorHelper._make_declare_statement`: compose the declare
command text from the cursor name, the scroll and hold flags and the
query (the format template is
`declare {name} {scroll} cursor{hold} for {query}`). -/
def make_declare_statement (name : String) (query : String)
    (scrollable : Bool) (hold : Bool) : String :=
  "declare " ++ sqlIdent name ++ " "
    ++ (if scrollable then "scroll" else "no scroll")
    ++ " cursor" ++ (if hold then " with hold" else "")
    ++ " for " ++ query

/-- `NamedCursorHelper._declare_gen`: dispatch the declare statement and
drive it through the engine (`_start_query` / `_execute_send` /
`_execute_results`, outside src, modelled from the spec as one round trip
raising on a fatal result); on success immediately describe the portal. -/
def declare_gen (cur : NamedCursor) (c : Conn) (query : String) :
    Conn × NamedCursor × Except PyErr Unit :=
  match exec_command c query with
  | (c1, .error e) => (c1, cur, .error e)
  | (c1, .ok _) => describe_gen cur c1

/-- `NamedCursorHelper._fetch_gen`: if the cursor was adopted and never
described, describe it first (`cur._start_query()` with no query is
modelled from the spec as local preparation, no round trip); then execute
`fetch forward <count|all> from <name>` and return the decoded batch
(`cur._tx.load_rows`, outside src, modelled as yielding the reply's
rows). -/
def fetch_gen (cur : NamedCursor) (c : Conn) (num : Option Int) :
    Conn × NamedCursor × Except PyErr (List Row) :=
  match (if cur.described then (c, cur, Except.ok ()) else describe_gen cur c) with
  | (c1, cur1, .error e) => (c1, cur1, .error e)
  | (c1, cur1, .ok _) =>
    let howmuch : String :=
      match num with
      | some n => sqlLit n
      | none => "all"
    match exec_command c1 ("fetch forward " ++ howmuch ++ " from " ++ sqlIdent cur1.name) with
    | (c2, .ok r) => (c2, cur1, .ok r.rows)
    | (c2, .error e) => (c2, cur1, .error e)

/-- `NamedCursorHelper._scroll_gen`: reject any mode other than
`relative` or `absolute` with a `ValueError` before composing or sending
anything; otherwise execute `move [absolute] <value> from <name>`. -/
def scroll_gen (cur : NamedCursor) (c : Conn) (value : Int) (mode : String) :
    Conn × Except PyErr Unit :=
  if ¬(mode = "relative" ∨ mode = "absolute") then
    (c, .error (.ValueError
      ("bad mode: " ++ mode ++ ". It should be relative or absolute")))
  else
    match exec_command c ("move" ++ (if mode = "absolute" then " absolute" else "")
        ++ " " ++ sqlLit value ++ " from " ++ sqlIdent cur.name) with
    | (c', .ok _) => (c', .ok ())
    | (c', .error e) => (c', .error e)

/-- `NamedCursor.close`: run `_close_gen` under the connection lock (a
raised error propagates out of the `with` block), then `self._close()`
(on `BaseCursor`, outside src, modelled from the spec as setting the
closed flag).  Note that `_close()` is reached only when `_close_gen`
did not raise. -/
def NamedCursor.close (cur : NamedCursor) (c : Conn) :
    Conn × NamedCursor × Except PyErr Unit :=
  match close_gen cur c with
  | (c', .error e) => (c', cur, .error e)
  | (c', .ok _) => (c', { cur with closed := true }, .ok ())

/-- `AsyncNamedCursor.close`: identical to the blocking variant apart
from the cooperative driver. -/
def AsyncNamedCursor.close (cur : NamedCursor) (c : Conn) :
    Conn × NamedCursor × Except PyErr Unit :=
  match close_gen cur c with
  | (c', .error e) => (c', cur, .error e)
  | (c', .ok _) => (c', { cur with closed := true }, .ok ())

/-- `NamedCursor.execute`: compose the declare statement and run
`_declare_gen` on it under the connection lock. -/
def NamedCursor.execute (cur : NamedCursor) (c : Conn) (query : String)
    (scrollable : Bool) (hold : Bool) :
    Conn × NamedCursor × Except PyErr Unit :=
  declare_gen cur c (make_declare_statement cur.name query scrollable hold)

/-- `AsyncNamedCursor.execute`: identical to the blocking variant apart
from the cooperative driver. -/
def AsyncNamedCursor.execute (cur : NamedCursor) (c : Conn) (query : String)
    (scrollable : Bool) (hold : Bool) :
    Conn × NamedCursor × Except PyErr Unit :=
  declare_gen cur c (make_declare_statement cur.name query scrollable hold)

/-- `NamedCursor.fetchone`: `_fetch_gen(self, 1)`; if a record came back,
advance `_pos` by one and return it, else return `None`. -/
def NamedCursor.fetchone (cur : NamedCursor) (c : Conn) :
    Conn × NamedCursor × Except PyErr (Option Row) :=
  match fetch_gen cur c (some 1) with
  | (c', cur', .error e) => (c', cur', .error e)
  | (c', cur', .ok recs) =>
    match recs with
    | [] => (c', cur', .ok none)
    | r :: _ => (c', { cur' with pos := cur'.pos + 1 }, .ok (some r))

/-- `NamedCursor.fetchmany`: a size of `0` (the default) falls back to
`self.arraysize`; `_pos` advances by the number of records returned. -/
def NamedCursor.fetchmany (cur : NamedCursor) (c : Conn) (size : Int) :
    Conn × NamedCursor × Except PyErr (List Row) :=
  let size : Int := if size = 0 then cur.arraysize else size
  match fetch_gen cur c (some size) with
  | (c', cur', .error e) => (c', cur', .error e)
  | (c', cur', .ok recs) =>
    (c', { cur' with pos := cur'.pos + recs.length }, .ok recs)

/-- `AsyncNamedCursor.fetchmany`: identical to the blocking variant apart
from the cooperative driver. -/
def AsyncNamedCursor.fetchmany (cur : NamedCursor) (c : Conn) (size : Int) :
    Conn × NamedCursor × Except PyErr (List Row) :=
  let size : Int := if size = 0 then cur.arraysize else size
  match fetch_gen cur c (some size) with
  | (c', cur', .error e) => (c', cur', .error e)
  | (c', cur', .ok recs) =>
    (c', { cur' with pos := cur'.pos + recs.length }, .ok recs)

/-- `NamedCursor.fetchall`: `_fetch_gen(self, None)`; `_pos` advances by
the number of records returned. -/
def NamedCursor.fetchall (cur : NamedCursor) (c : Conn) :
    Conn × NamedCursor × Except PyErr (List Row) :=
  match fetch_gen cur c none with
  | (c', cur', .error e) => (c', cur', .error e)
  | (c', cur', .ok recs) =>
    (c', { cur' with pos := cur'.pos + recs.length }, .ok recs)

/-- `NamedCursor.scroll`: run `_scroll_gen` under the connection lock;
on success update `_pos` locally, adding the value in `relative` mode
and overwriting it in `absolute` mode (the server has no reliable way to
report a cursor out of bound). -/
def NamedCursor.scroll (cur : NamedCursor) (c : Conn) (value : Int) (mode : String) :
    Conn × NamedCursor × Except PyErr Unit :=
  match scroll_gen cur c value mode with
  | (c', .error e) => (c', cur, .error e)
  | (c', .ok _) =>
    if mode = "relative" then (c', { cur with pos := cur.pos + value }, .ok ())
    else (c', { cur with pos := value }, .ok ())

/-- `AsyncNamedCursor.scroll`: run `_scroll_gen` under the connection
lock and return; the source contains no `_pos` update in this method. -/
def AsyncNamedCursor.scroll (cur : NamedCursor) (c : Conn) (value : Int) (mode : String) :
    Conn × NamedCursor × Except PyErr Unit :=
  match scroll_gen cur c value mode with
  | (c', .error e) => (c', cur, .error e)
  | (c', .ok _) => (c', cur, .ok ())

/-- `NamedCursor.__del__`: warn with a `ResourceWarning` if the cursor is
not closed (the message interpolates the cursor object, modelled as its
name: the spec asks for a diagnosable warning naming the cursor). -/
def NamedCursor.deinit (cur : NamedCursor) : List PyWarning :=
  if ¬cur.closed then
    [.resourceWarning ("named cursor " ++ cur.name
      ++ " was deleted while still open."
      ++ " Please use with or .close() to close the cursor properly")]
  else []

/-- `AsyncNamedCursor.__del__`: identical to the blocking variant. -/
def AsyncNamedCursor.deinit (cur : NamedCursor) : List PyWarning :=
  if ¬cur.closed then
    [.resourceWarning ("named cursor " ++ cur.name
      ++ " was deleted while still open."
      ++ " Please use with or .close() to close the cursor properly")]
  else []

/-- The libpq connection wrapper of `pq_ctypes.py`: its only slot is the
native session handle, `None` once released.  Handles are abstracted to
natural numbers. -/
structure PGconn where
  pgconn_ptr : Option Nat
deriving DecidableEq, Repr

/-- `PGconn.finish`: swap the stored handle with `None` first, then call
`impl.PQfinish` on the old value only when it was not `None`.  The second
component lists the handles released to `PQfinish` by this call. -/
def PGconn.finish (p : PGconn) : PGconn × List Nat :=
  let old := p.pgconn_ptr
  let p' : PGconn := { pgconn_ptr := none }
  match old with
  | some h => (p', [h])
  | none => (p', [])

/-- `PGconn.__del__`: implicit destruction calls `self.finish()`. -/
def PGconn.deinit (p : PGconn) : PGconn × List Nat := p.finish

/-- Modelled from the spec (for refinement comparison only): the declare
command template as the spec words it, `declare <name> [no] scroll
cursor [with hold] for <query>`. -/
def declare_template_spec (name : String) (query : String)
    (scrollable : Bool) (hold : Bool) : String :=
  "declare " ++ sqlIdent name ++ " " ++ (if scrollable then "" else "no ")
    ++ "scroll cursor" ++ (if hold then " with hold" else "")
    ++ " for " ++ query

/-- C8: the composed declare command text follows the spec template:
the scroll word is `scroll` exactly when `scrollable` is true and
`no scroll` otherwise, and ` with hold` is present exactly when `hold`
is true. -/
theorem make_declare_statement_follows_template
    (name query : String) (scrollable hold : Bool) :
    make_declare_statement name query scrollable hold =
      declare_template_spec name query scrollable hold := by
  apply String.ext
  cases scrollable <;> cases hold <;>
    simp [make_declare_statement, declare_template_spec, String.data_append]

/-- C7: `finish` nulls the stored handle, a second `finish` is a no-op
releasing nothing, repeated finishes release the handle at most once in
total, and implicit destruction calls the same `finish`. -/
theorem PGconn_finish_releases_once (p : PGconn) :
    p.finish.1.pgconn_ptr = none
    ∧ p.finish.1.finish = ({ pgconn_ptr := none }, [])
    ∧ (p.finish.2 ++ p.finish.1.finish.2).length ≤ 1
    ∧ PGconn.deinit p = p.finish := by
  cases p with
  | mk ptr => cases ptr <;> simp [PGconn.finish, PGconn.deinit]

/-- C9: destroying a cursor facade (sync or async) that is still open
emits exactly one `ResourceWarning` naming the cursor, and destroying a
closed one emits no warning. -/
theorem deinit_warns_iff_open (cur : NamedCursor) :
    (cur.closed = false →
      NamedCursor.deinit cur =
        [PyWarning.resourceWarning ("named cursor " ++ cur.name
          ++ " was deleted while still open."
          ++ " Please use with or .close() to close the cursor properly")]
      ∧ AsyncNamedCursor.deinit cur =
        [PyWarning.resourceWarning ("named cursor " ++ cur.name
          ++ " was deleted while still open."
          ++ " Please use with or .close() to close the cursor properly")])
    ∧ (cur.closed = true →
      NamedCursor.deinit cur = [] ∧ AsyncNamedCursor.deinit cur = []) := by
  constructor <;> intro h <;>
    simp [NamedCursor.deinit, AsyncNamedCursor.deinit, h]

/-- C9 witness: a fresh cursor named `foo` warns on destruction, and the
same cursor once closed does not. -/
theorem deinit_warns_iff_open_witness :
    NamedCursor.deinit (NamedCursor.make "foo") =
      [PyWarning.resourceWarning ("named cursor " ++ "foo"
        ++ " was deleted while still open."
        ++ " Please use with or .close() to close the cursor properly")]
    ∧ NamedCursor.deinit { NamedCursor.make "foo" with closed := true } = [] :=
  ⟨((deinit_warns_iff_open (NamedCursor.make "foo")).1 rfl).1,
   ((deinit_warns_iff_open { NamedCursor.make "foo" with closed := true }).2 rfl).1⟩

/-- C4: for any cursor state and any mode other than `relative` or
`absolute`, scroll fails with a `ValueError` and the connection is left
untouched: nothing is composed or dispatched, no reply is consumed, in
the generator and in both facades. -/
theorem scroll_invalid_mode_no_io
    (cur : NamedCursor) (c : Conn) (value : Int) (mode : String)
    (h : mode ≠ "relative" ∧ mode ≠ "absolute") :
    scroll_gen cur c value mode =
      (c, .error (.ValueError
        ("bad mode: " ++ mode ++ ". It should be relative or absolute")))
    ∧ NamedCursor.scroll cur c value mode =
      (c, cur, .error (.ValueError
        ("bad mode: " ++ mode ++ ". It should be relative or absolute")))
    ∧ AsyncNamedCursor.scroll cur c value mode =
      (c, cur, .error (.ValueError
        ("bad mode: " ++ mode ++ ". It should be relative or absolute"))) := by
  have h1 : ¬(mode = "relative" ∨ mode = "absolute") := by
    rintro (h' | h')
    · exact h.1 h'
    · exact h.2 h'
  simp [scroll_gen, NamedCursor.scroll, AsyncNamedCursor.scroll, h1]

/-- C4 witness: `scroll(3, mode="wat")` on a fresh cursor over an empty
connection raises the `ValueError` with the connection untouched. -/
theorem scroll_invalid_mode_no_io_witness :
    NamedCursor.scroll (NamedCursor.make "foo")
        { replies := [], sent := [] } 3 "wat" =
      ({ replies := [], sent := [] }, NamedCursor.make "foo",
       .error (.ValueError
         ("bad mode: " ++ "wat" ++ ". It should be relative or absolute"))) :=
  (scroll_invalid_mode_no_io (NamedCursor.make "foo")
    { replies := [], sent := [] } 3 "wat" ⟨by decide, by decide⟩).2.1

/-- C1: at the failing input (a described cursor at position 0, the
server accepting every move), the blocking scroll updates the
caller-visible position (by the delta in relative mode, to the target in
absolute mode) while the async scroll leaves it at 0 in both modes. -/
theorem async_scroll_position_not_updated :
    (NamedCursor.scroll { NamedCursor.make "foo" with described := true }
      { replies := [Reply.ok { fields := [], rows := [] }], sent := [] }
      5 "relative").2.1.pos = 5
    ∧ (AsyncNamedCursor.scroll { NamedCursor.make "foo" with described := true }
      { replies := [Reply.ok { fields := [], rows := [] }], sent := [] }
      5 "relative").2.1.pos = 0
    ∧ (NamedCursor.scroll { NamedCursor.make "foo" with described := true }
      { replies := [Reply.ok { fields := [], rows := [] }], sent := [] }
      7 "absolute").2.1.pos = 7
    ∧ (AsyncNamedCursor.scroll { NamedCursor.make "foo" with described := true }
      { replies := [Reply.ok { fields := [], rows := [] }], sent := [] }
      7 "absolute").2.1.pos = 0 := by
  refine ⟨rfl, rfl, rfl, rfl⟩

/-- C2 counterexample: with the server rejecting the `close` command,
the raised error propagates out of `close()` before `_close()` runs, so
the cursor is NOT left in the closed state, contrary to the claim. -/
theorem close_failure_leaves_cursor_open :
    (NamedCursor.close { NamedCursor.make "foo" with described := true }
        { replies := [Reply.err "boom"], sent := [] }).2.1.closed = false
    ∧ (NamedCursor.close { NamedCursor.make "foo" with described := true }
        { replies := [Reply.err "boom"], sent := [] }).2.2 =
      Except.error (PyErr.ProgrammingError "boom") :=
  ⟨rfl, rfl⟩

/-- C2 (amended): `close()` (sync and async) sets the closed flag when
the issued close command succeeds; when the command fails the error
propagates and the cursor object is left unchanged, so the closed flag
is not set by that call. -/
theorem close_sets_closed_iff_command_ok (cur : NamedCursor) (c : Conn) :
    ((close_gen cur c).2 = .ok () →
      NamedCursor.close cur c =
        ((close_gen cur c).1, { cur with closed := true }, .ok ())
      ∧ AsyncNamedCursor.close cur c =
        ((close_gen cur c).1, { cur with closed := true }, .ok ()))
    ∧ (∀ e, (close_gen cur c).2 = .error e →
      NamedCursor.close cur c = ((close_gen cur c).1, cur, .error e)
      ∧ AsyncNamedCursor.close cur c = ((close_gen cur c).1, cur, .error e)) := by
  rcases hg : close_gen cur c with ⟨c1, r1⟩
  cases r1 <;>
    simp [NamedCursor.close, AsyncNamedCursor.close, hg]

/-- C2 witness: with the server accepting the close command, the cursor
is closed afterwards. -/
theorem close_sets_closed_iff_command_ok_witness :
    (NamedCursor.close (NamedCursor.make "foo")
      { replies := [Reply.ok { fields := [], rows := [] }],
        sent := [] }).2.1.closed = true := by
  have h := ((close_sets_closed_iff_command_ok (NamedCursor.make "foo")
    { replies := [Reply.ok { fields := [], rows := [] }], sent := [] }).1 rfl).1
  rw [h]

/-- C3 counterexample: the first `close()` succeeds; the second re-issues
the close command, the server rejects it (the portal is gone), and the
second call raises where the first did not — contrary to the claim that a
second close never raises beyond the first call's result. -/
theorem second_close_can_raise :
    (NamedCursor.close { NamedCursor.make "foo" with described := true }
      { replies := [Reply.ok { fields := [], rows := [] },
                    Reply.err "cursor foo does not exist"],
        sent := [] }).2.2 = Except.ok ()
    ∧ (NamedCursor.close
        (NamedCursor.close { NamedCursor.make "foo" with described := true }
          { replies := [Reply.ok { fields := [], rows := [] },
                        Reply.err "cursor foo does not exist"],
            sent := [] }).2.1
        (NamedCursor.close { NamedCursor.make "foo" with described := true }
          { replies := [Reply.ok { fields := [], rows := [] },
                        Reply.err "cursor foo does not exist"],
            sent := [] }).1).2.2 =
      Except.error (PyErr.ProgrammingError "cursor foo does not exist")
    ∧ (NamedCursor.close
        (NamedCursor.close { NamedCursor.make "foo" with described := true }
          { replies := [Reply.ok { fields := [], rows := [] },
                        Reply.err "cursor foo does not exist"],
            sent := [] }).2.1
        (NamedCursor.close { NamedCursor.make "foo" with described := true }
          { replies := [Reply.ok { fields := [], rows := [] },
                        Reply.err "cursor foo does not exist"],
            sent := [] }).1).1.sent.length = 2 :=
  ⟨rfl, rfl, rfl⟩

/-- C3 (amended): after a `close()` whose command succeeded the cursor
is closed, and a second `close()` leaves the closed flag set whatever
the server replies — but it is not a local no-op: it re-issues the
`close <name>` command (and raises if the server rejects it). -/
theorem close_twice_stays_closed (cur : NamedCursor) (c : Conn)
    (h : (NamedCursor.close cur c).2.2 = Except.ok ()) :
    (NamedCursor.close cur c).2.1.closed = true
    ∧ ∀ c2 : Conn,
        (NamedCursor.close (NamedCursor.close cur c).2.1 c2).2.1.closed = true
        ∧ (NamedCursor.close (NamedCursor.close cur c).2.1 c2).1.sent =
            c2.sent ++ [Command.sql ("close " ++ sqlIdent cur.name)] := by
  rcases hg : close_gen cur c with ⟨c1, r1⟩
  cases r1 with
  | error e => simp [NamedCursor.close, hg] at h
  | ok u =>
    have hc : NamedCursor.close cur c = (c1, { cur with closed := true }, .ok ()) := by
      simp [NamedCursor.close, hg]
    rw [hc]
    refine ⟨rfl, fun c2 => ?_⟩
    rcases hr : c2.replies with _ | ⟨hd, tl⟩
    · simp [NamedCursor.close, close_gen, exec_command, round_trip, hr]
    · cases hd <;> simp [NamedCursor.close, close_gen, exec_command, round_trip, hr]

/-- C3 witness: a concrete successful close leaves the cursor closed,
and a second close on an exhausted connection still reports it closed. -/
theorem close_twice_stays_closed_witness :
    (NamedCursor.close
      (NamedCursor.close (NamedCursor.make "foo")
        { replies := [Reply.ok { fields := [], rows := [] }], sent := [] }).2.1
      { replies := [], sent := [] }).2.1.closed = true :=
  ((close_twice_stays_closed (NamedCursor.make "foo")
    { replies := [Reply.ok { fields := [], rows := [] }], sent := [] } rfl).2
    { replies := [], sent := [] }).1

/-- C5: a successful execute (declare) first drives the declare command,
then performs the describe round trip before returning: the trace ends
with the declare statement followed by the describe-portal request, the
described flag is set, and the field descriptors are recorded; both
facades behave identically. -/
theorem execute_describes_before_returning
    (cur : NamedCursor) (c : Conn) (query : String) (scrollable hold : Bool)
    (d f : OkReply) (rest : List Reply)
    (h : c.replies = Reply.ok d :: Reply.ok f :: rest) :
    NamedCursor.execute cur c query scrollable hold =
      ({ replies := rest,
         sent := c.sent
           ++ [Command.sql (make_declare_statement cur.name query scrollable hold),
               Command.describePortal cur.name] },
       { cur with described := true, description := some f.fields },
       Except.ok ())
    ∧ AsyncNamedCursor.execute cur c query scrollable hold =
      ({ replies := rest,
         sent := c.sent
           ++ [Command.sql (make_declare_statement cur.name query scrollable hold),
               Command.describePortal cur.name] },
       { cur with described := true, description := some f.fields },
       Except.ok ()) := by
  simp [NamedCursor.execute, AsyncNamedCursor.execute, declare_gen, describe_gen,
        exec_command, round_trip, h]

/-- C5 witness: a concrete successful declare of `select 1` on the fresh
cursor `foo` leaves it described with the reply's field descriptors
recorded. -/
theorem execute_describes_before_returning_witness :
    (NamedCursor.execute (NamedCursor.make "foo")
      { replies := [Reply.ok { fields := [], rows := [] },
                    Reply.ok { fields := ["bar"], rows := [] }], sent := [] }
      "select 1" true false).2.1.described = true := by
  have h := (execute_describes_before_returning (NamedCursor.make "foo")
    { replies := [Reply.ok { fields := [], rows := [] },
                  Reply.ok { fields := ["bar"], rows := [] }], sent := [] }
    "select 1" true false
    { fields := [], rows := [] } { fields := ["bar"], rows := [] } [] rfl).1
  rw [h]

/-- C6: a fetch on a cursor whose described flag is false performs the
implicit describe round trip first and the fetch second; afterwards the
described flag is true and the fetch succeeds with the reply's rows,
with no prior declare or describe call on the client object. -/
theorem fetch_on_adopted_cursor_describes_first
    (cur : NamedCursor) (c : Conn) (num : Option Int)
    (hd : cur.described = false) (d f : OkReply) (rest : List Reply)
    (h : c.replies = Reply.ok d :: Reply.ok f :: rest) :
    fetch_gen cur c num =
      ({ replies := rest,
         sent := c.sent
           ++ [Command.describePortal cur.name,
               Command.sql ("fetch forward "
                 ++ (match num with | some n => sqlLit n | none => "all")
                 ++ " from " ++ sqlIdent cur.name)] },
       { cur with described := true, description := some d.fields },
       Except.ok f.rows) := by
  simp [fetch_gen, describe_gen, exec_command, round_trip, hd, h]

/-- C6 witness: fetching one row from a freshly adopted cursor `test`
(never declared nor described by this object) describes it first and
succeeds. -/
theorem fetch_on_adopted_cursor_describes_first_witness :
    fetch_gen (NamedCursor.make "test")
      { replies := [Reply.ok { fields := ["bar"], rows := [] },
                    Reply.ok { fields := ["bar"], rows := [[1]] }], sent := [] }
      (some 1) =
      ({ replies := [],
         sent := [Command.describePortal "test",
                  Command.sql ("fetch forward " ++ sqlLit 1
                    ++ " from " ++ sqlIdent "test")] },
       { NamedCursor.make "test" with
          described := true,
          description := some ["bar"] },
       Except.ok [[1]]) := by
  simpa using fetch_on_adopted_cursor_describes_first (NamedCursor.make "test")
    { replies := [Reply.ok { fields := ["bar"], rows := [] },
                  Reply.ok { fields := ["bar"], rows := [[1]] }], sent := [] }
    (some 1) rfl { fields := ["bar"], rows := [] }
    { fields := ["bar"], rows := [[1]] } [] rfl

/-- C10: `fetchmany` with size 0 (the value an omitted size defaults to)
issues a fetch for `arraysize` rows instead of zero, and on success the
position advances by the number of rows actually returned; both facades
behave identically. -/
theorem fetchmany_default_size_uses_arraysize
    (cur : NamedCursor) (c : Conn) (f : OkReply) (rest : List Reply)
    (hd : cur.described = true) (h : c.replies = Reply.ok f :: rest) :
    NamedCursor.fetchmany cur c 0 =
      ({ replies := rest,
         sent := c.sent ++ [Command.sql ("fetch forward " ++ sqlLit cur.arraysize
           ++ " from " ++ sqlIdent cur.name)] },
       { cur with pos := cur.pos + f.rows.length },
       Except.ok f.rows)
    ∧ AsyncNamedCursor.fetchmany cur c 0 =
      ({ replies := rest,
         sent := c.sent ++ [Command.sql ("fetch forward " ++ sqlLit cur.arraysize
           ++ " from " ++ sqlIdent cur.name)] },
       { cur with pos := cur.pos + f.rows.length },
       Except.ok f.rows) := by
  simp [NamedCursor.fetchmany, AsyncNamedCursor.fetchmany, fetch_gen,
        exec_command, round_trip, hd, h]

/-- C10 witness: on a described cursor with the default arraysize of 1,
`fetchmany(0)` fetches one row and advances the position by the single
row returned. -/
theorem fetchmany_default_size_uses_arraysize_witness :
    NamedCursor.fetchmany { NamedCursor.make "foo" with described := true }
      { replies := [Reply.ok { fields := ["bar"], rows := [[7]] }], sent := [] } 0 =
      ({ replies := [],
         sent := [Command.sql ("fetch forward " ++ sqlLit 1
           ++ " from " ++ sqlIdent "foo")] },
       { NamedCursor.make "foo" with described := true, pos := 1 },
       Except.ok [[7]]) := by
  simpa using (fetchmany_default_size_uses_arraysize
    { NamedCursor.make "foo" with described := true }
    { replies := [Reply.ok { fields := ["bar"], rows := [[7]] }], sent := [] }
    { fields := ["bar"], rows := [[7]] } [] rfl rfl).1
